import Mathlib

/-!
Verification of the HIT137 assignment-3 desktop application
(image-classification / sentiment-analysis GUI).

The definitions below are a shallow embedding of the Python sources:
`utils.py` (URL sniffing, config clamp/load/save), `base_model.py`
(input validators and `friendly_error_message`),
`image_classification_model.py` and `sentiment_analysis_model.py`
(model loading, processing and the sentiment distribution), and the
background-dispatch pattern of `gui_application.py`.

External effects (filesystem existence, network fetches, the Hugging
Face pipelines, PIL image decoding) are passed in as explicit
parameters or outcome values, so every function of the repository
becomes a pure Lean function of its inputs and of those outcomes.
-/

namespace HIT137

/-! ### Python `str.strip` (ASCII whitespace) -/

/-- Characters removed by Python `str.strip()` for ASCII input. -/
def isPySpace (c : Char) : Bool :=
  c == ' ' || c == '\t' || c == '\n' || c == '\r' || c == '\x0b' || c == '\x0c'

/-- Left strip on the character list. -/
def lstripL (l : List Char) : List Char := l.dropWhile isPySpace

/-- Right strip on the character list. -/
def rstripL (l : List Char) : List Char := (l.reverse.dropWhile isPySpace).reverse

/-- Python `s.strip()` restricted to ASCII whitespace. -/
def pyStrip (s : String) : String := ⟨rstripL (lstripL s.data)⟩

theorem dropWhile_dropWhile (p : Char → Bool) (l : List Char) :
    (l.dropWhile p).dropWhile p = l.dropWhile p := by
  induction l with
  | nil => rfl
  | cons a t ih =>
    by_cases h : p a <;> simp [List.dropWhile_cons, h, ih]

theorem dropWhile_fixed_of_append (p : Char → Bool) (l₁ l₂ : List Char)
    (h : (l₁ ++ l₂).dropWhile p = l₁ ++ l₂) : l₁.dropWhile p = l₁ := by
  cases l₁ with
  | nil => rfl
  | cons a t =>
    by_cases ha : p a
    · exfalso
      have hlen : ((t ++ l₂).dropWhile p).length ≤ (t ++ l₂).length :=
        (List.dropWhile_suffix p).sublist.length_le
      rw [List.cons_append, List.dropWhile_cons] at h
      simp only [ha, if_true] at h
      rw [h] at hlen
      simp at hlen
    · simp [List.dropWhile_cons, ha]

theorem rstripL_append (l : List Char) :
    rstripL l ++ (l.reverse.takeWhile isPySpace).reverse = l := by
  have h : l.reverse.takeWhile isPySpace ++ l.reverse.dropWhile isPySpace = l.reverse :=
    List.takeWhile_append_dropWhile isPySpace l.reverse
  unfold rstripL
  rw [← List.reverse_append, h, List.reverse_reverse]

theorem lstripL_rstripL (l : List Char) (h : lstripL l = l) :
    lstripL (rstripL l) = rstripL l := by
  have hsplit := rstripL_append l
  apply dropWhile_fixed_of_append isPySpace (rstripL l) (l.reverse.takeWhile isPySpace).reverse
  rw [hsplit]
  exact h

theorem rstripL_rstripL (l : List Char) : rstripL (rstripL l) = rstripL l := by
  unfold rstripL
  rw [List.reverse_reverse, dropWhile_dropWhile]

theorem pyStrip_idem (s : String) : pyStrip (pyStrip s) = pyStrip s := by
  show (⟨rstripL (lstripL (rstripL (lstripL s.data)))⟩ : String) = ⟨rstripL (lstripL s.data)⟩
  rw [lstripL_rstripL (lstripL s.data) (dropWhile_dropWhile isPySpace s.data),
      rstripL_rstripL]

/-! ### `urllib.parse.urlparse` — scheme extraction and the one check that raises

`utils.is_url` calls `urlparse(s.strip())` and tests
`p.scheme in ("http", "https")`, returning `False` when `urlparse`
raises.  We model the parts of `urlsplit` that determine the scheme and
the `Invalid IPv6 URL` raise: removal of the unsafe bytes tab/CR/LF,
scheme extraction (leading ASCII letter, scheme characters up to the
first colon, lowercased) and the bracket-mismatch check on the netloc. -/

/-- Characters allowed in a URL scheme (`urllib.parse.scheme_chars`). -/
def scheme_chars : List Char :=
  "abcdefghijklmnopqrstuvwxyzABCDEFGHIJKLMNOPQRSTUVWXYZ0123456789+-.".data

def isSchemeChar (c : Char) : Bool := scheme_chars.contains c

def isAsciiAlpha (c : Char) : Bool :=
  ('a' ≤ c && c ≤ 'z') || ('A' ≤ c && c ≤ 'Z')

/-- `urlsplit` removes tab, CR and LF anywhere in the URL. -/
def removeUnsafe (l : List Char) : List Char :=
  l.filter (fun c => !(c == '\t' || c == '\r' || c == '\n'))

/-- Scheme extraction of `urlsplit`: if the text before the first colon is
nonempty, starts with an ASCII letter and consists of scheme characters,
it is the (lowercased) scheme and the rest follows the colon; otherwise
the scheme is empty and the URL is left whole. -/
def splitScheme (l : List Char) : String × List Char :=
  let pre := l.takeWhile (fun c => c != ':')
  if pre.length < l.length then
    match l with
    | [] => ("", l)
    | c0 :: _ =>
      if 0 < pre.length && isAsciiAlpha c0 && pre.all isSchemeChar then
        (⟨pre.map Char.toLower⟩, l.drop (pre.length + 1))
      else ("", l)
  else ("", l)

/-- The netloc bracket check of `urlsplit`: with a `//` netloc whose
brackets are mismatched, `urlsplit` raises `ValueError "Invalid IPv6 URL"`. -/
def invalidIpv6 (rest : List Char) : Bool :=
  if rest.take 2 = ['/', '/'] then
    let netloc := (rest.drop 2).takeWhile (fun c => !(c == '/' || c == '?' || c == '#'))
    (netloc.contains '[' && !(netloc.contains ']')) ||
      (netloc.contains ']' && !(netloc.contains '['))
  else false

/-- `utils.is_url`: strip, parse, and test the scheme against http/https;
`False` when `urlparse` raises. -/
def is_url (s : String) : Bool :=
  let u := removeUnsafe (pyStrip s).data
  let p := splitScheme u
  if invalidIpv6 p.2 then false
  else p.1 == "http" || p.1 == "https"

theorem is_url_pyStrip (s : String) : is_url (pyStrip s) = is_url s := by
  unfold is_url
  rw [pyStrip_idem]

/-! ### The input classifier and the validators of `base_model.py` -/

/-- The three categories of the input-sniffing heuristic. -/
inductive InputCategory
  | url
  | file
  | text
deriving DecidableEq

/-- The decision order of `validate_image_input` (`base_model.py`): strip
the input, accept a URL via `is_url`, else an existing path via
`os.path.exists`, else the input is neither URL nor file.  Filesystem
existence is an explicit oracle `pathExists`. -/
def classify (input : String) (pathExists : String → Bool) : InputCategory :=
  let s := pyStrip input
  if is_url s then .url
  else if pathExists s then .file
  else .text

/-- The outcome of the `validate_image_input` decorator for a string
input: accept (passing the stripped string on), `ModelInputError` for a
blank input, `FileNotFoundError` otherwise.  The bytes fast path of the
source does not arise for string inputs. -/
inductive ImageValidation
  | input_error (msg : String)
  | accept_url (s : String)
  | accept_file (s : String)
  | not_found (path : String)
deriving DecidableEq

/-- `base_model.validate_image_input` on a string input. -/
def validate_image_input (input : String) (pathExists : String → Bool) :
    ImageValidation :=
  let s := pyStrip input
  if s = "" then .input_error "Please provide an image URL or a local file path."
  else if is_url s then .accept_url s
  else if pathExists s then .accept_file s
  else .not_found s

/-- `base_model.validate_text_input`: `None` becomes `""`; a blank string
raises `ModelInputError`; otherwise the un-stripped string is passed on. -/
def validate_text_input (text : Option String) : Except String String :=
  let s := text.getD ""
  if pyStrip s = "" then .error "Please enter some text to analyse."
  else .ok s

/-! ### `utils.py` — clamp and config load/save

`clamp_int` first coerces with `int(...)` (falling back to `lo` when the
coercion raises); we model the already-coerced integer.  The config file
contents are modelled as a JSON value; reading or parsing failures are
the `unreadable`/`malformed` states. -/

/-- `utils.clamp_int` on an integer value. -/
def clamp_int (val lo hi : Int) : Int := max lo (min hi val)

/-- JSON values as produced by `json.load`. -/
inductive JVal
  | jnull
  | jbool (b : Bool)
  | jint (n : Int)
  | jstr (s : String)
  | jarr (xs : List JVal)
  | jobj (kvs : List (String × JVal))

/-- Python dict lookup on an association list (later bindings win, as
when `json.load` collapses duplicate keys). -/
def dictGet (kvs : List (String × JVal)) (k : String) : Option JVal :=
  match kvs with
  | [] => none
  | (k', v) :: rest =>
    match dictGet rest k with
    | some r => some r
    | none => if k' = k then some v else none

/-- `utils.DEFAULT_CONFIG`. -/
def DEFAULT_CONFIG : List (String × JVal) :=
  [("image_top_k", .jint 5), ("text_max_len", .jint 256)]

/-- The state of `app_config.json` as seen by `load_config`. -/
inductive FileState
  | missing
  | unreadable
  | malformed
  | stored (v : JVal)

/-- `utils.load_config`: defaults when the file is missing or any read or
parse error occurs; otherwise the defaults updated with the stored
values of known keys (non-dict JSON leaves the defaults untouched). -/
def load_config (fs : FileState) : List (String × JVal) :=
  match fs with
  | .missing => DEFAULT_CONFIG
  | .unreadable => DEFAULT_CONFIG
  | .malformed => DEFAULT_CONFIG
  | .stored (JVal.jobj kvs) =>
    DEFAULT_CONFIG.map (fun kv => (kv.1, (dictGet kvs kv.1).getD kv.2))
  | .stored _ => DEFAULT_CONFIG

/-- `utils.save_config`: the object written to disk — only the known
keys, `cfg.get(k, DEFAULT_CONFIG[k])` for each. -/
def save_config (cfg : List (String × JVal)) : List (String × JVal) :=
  DEFAULT_CONFIG.map (fun kv => (kv.1, (dictGet cfg kv.1).getD kv.2))

/-! ### Exceptions and `friendly_error_message` (`base_model.py`)

The exception classes distinguished by `friendly_error_message`, with
the payload that Python `str(e)` would print (a `FileNotFoundError`
raised as `FileNotFoundError(s)` prints `s`).  The model assumes the
`requests` import succeeded, so `_REQ_EXC` is the nonempty tuple. -/

inductive Exc
  | model_input_error (msg : String)
  | file_not_found_error (path : String)
  | unidentified_image_error (msg : String)
  | missing_schema (msg : String)
  | invalid_url (msg : String)
  | connection_error (msg : String)
  | timeout (msg : String)
  | http_error (status : Option Nat) (msg : String)
  | other (msg : String)
deriving DecidableEq

/-- Python `str(e)` for the exceptions above. -/
def excStr : Exc → String
  | .model_input_error m => m
  | .file_not_found_error p => p
  | .unidentified_image_error m => m
  | .missing_schema m => m
  | .invalid_url m => m
  | .connection_error m => m
  | .timeout m => m
  | .http_error _ m => m
  | .other m => m

/-- `base_model.friendly_error_message`. -/
def friendly_error_message : Exc → String
  | .model_input_error m => m
  | .file_not_found_error p => "Image file not found: " ++ p
  | .unidentified_image_error _ => "The file/URL could not be opened as an image."
  | .missing_schema _ =>
    "That doesn\x27t look like a valid URL. Please provide a full http/https link."
  | .invalid_url _ =>
    "That doesn\x27t look like a valid URL. Please provide a full http/https link."
  | .connection_error _ =>
    "Couldn\x27t reach the URL (connection error). Please check your network or the URL."
  | .timeout _ => "The request timed out while fetching the URL."
  | .http_error st _ =>
    "HTTP error while fetching the URL (status " ++
      (match st with | some n => toString n | none => "?") ++ ")."
  | .other m => m

/-! ### `ImageClassificationModel.process`

The external effects of `process` — `requests.get` plus `Image.open` on
the URL branch, `Image.open` on the local branch, `.convert("RGB")` and
the classification pipeline — are fields of an environment record, each
returning either a value or the exception it raised.
`ModelMixin.validate_output` is defined in a `base_model.py` revision
that is not among the sources, so it stays an uninterpreted predicate;
the decimal renderings of the float scores (`f"{score:.3f}"`,
`f"{score*100:.1f}"`) are likewise uninterpreted functions, floating
point decimal formatting being outside the embedding. -/

/-- A PIL image, of which `process` inspects only `mode`. -/
structure PILImage where
  mode : String
deriving DecidableEq

/-- One prediction record of the image pipeline. -/
structure Pred where
  label : String
  score : Float

structure ImgEnv where
  urlFetch : String → Except Exc PILImage
  fileOpen : String → Except Exc PILImage
  convert : PILImage → PILImage
  pipeline : PILImage → Except Exc (List Pred)
  validOut : String → Bool
  f3 : Float → String
  f1 : Float → String

/-- Python `s.startswith(pre)` (structural, so that it computes in proofs). -/
def pyStartsWith (s pre : String) : Bool := pre.data.isPrefixOf s.data

/-- `input_data.startswith(("http://", "https://"))`. -/
def startswithHttp (s : String) : Bool :=
  pyStartsWith s "http://" || pyStartsWith s "https://"

/-- The predictions actually rendered: `results[:5]`. -/
def shownPreds (results : List Pred) : List Pred := results.take 5

/-- `"█" * int(score * 20) + "░" * (20 - int(score * 20))`. -/
def confidence_bar (score : Float) : String :=
  let k := (score * 20).toUInt64.toNat
  ⟨List.replicate k '█' ++ List.replicate (20 - k) '░'⟩

/-- One block of the formatted output (prediction `i`, zero-based). -/
def result_block (env : ImgEnv) (i : Nat) (p : Pred) : String :=
  toString (i + 1) ++ ". " ++ p.label ++ "\n" ++
  "   Confidence: " ++ env.f3 p.score ++ " (" ++ env.f1 p.score ++ "%)\n" ++
  "   [" ++ confidence_bar p.score ++ "]\n\n"

/-- The `formatted_results` string built from the top-5 slice. -/
def format_results (env : ImgEnv) (results : List Pred) : String :=
  "🖼️ Image Classification Results:\n\n" ++
    String.join ((shownPreds results).mapIdx (fun i p => result_block env i p))

/-- `_create_demo_classification_response` is a fixed template around the
input; only the fact that it is returned matters to the claims, so the
template body is abbreviated to its head line. -/
def demo_response (input_text : String) : String :=
  "🖼️ DEMO MODE - Image Classification\n\nInput: \"" ++ input_text ++ "\"\n"

/-- The part of `process` after an image was obtained: RGB conversion,
pipeline call, result formatting; the enclosing `try` maps any pipeline
exception to `"Error processing image: ..."`. -/
def classify_phase (env : ImgEnv) (image : PILImage) : String :=
  let image := if image.mode ≠ "RGB" then env.convert image else image
  match env.pipeline image with
  | .error e => "Error processing image: " ++ excStr e
  | .ok results =>
    if results.length > 0 then
      let formatted := format_results env results
      if env.validOut formatted then formatted
      else "Error: Invalid classification result"
    else "Error: No classification results obtained"

/-- `ImageClassificationModel.process` (model already loaded): the URL
branch returns `"Error loading image from URL: ..."` when the fetch
raises; the local branch falls back to the demo response when
`Image.open` raises. -/
def process (input_data : String) (env : ImgEnv) : String :=
  if startswithHttp input_data then
    match env.urlFetch input_data with
    | .error e => "Error loading image from URL: " ++ excStr e
    | .ok image => classify_phase env image
  else
    match env.fileOpen input_data with
    | .error _ => demo_response input_data
    | .ok image => classify_phase env image

/-- `SentimentAnalysisModel.process` (model already loaded).  The
pipeline returns a list of `(label, score)` records (the dict `get`
defaults of the source are applied by the caller of this model);
`f2` renders `f"{score:.2f}"`. -/
def sentiment_process (input_text : String)
    (pl : String → Except Exc (List (String × Float)))
    (validOut : String → Bool) (f2 : Float → String) : String :=
  match pl input_text with
  | .error e => "Error processing sentiment: " ++ excStr e
  | .ok [] => "Error: No sentiment analysis result"
  | .ok (r :: _) =>
    let formatted := "Sentiment: " ++ r.1 ++ " (Confidence: " ++ f2 r.2 ++ ")"
    if validOut formatted then formatted
    else "Error: Invalid sentiment analysis result"

/-! ### `load_model` with fallback (both model classes) -/

/-- The `_is_loaded` flag and `_model_name` after a successful load. -/
structure LoadState where
  is_loaded : Bool
  model_name : String
deriving DecidableEq

/-- The shared `load_model` shape: try the primary pipeline; on any
exception try the default pipeline of the task, renaming the model;
re-raise the
fallback exception when both fail. -/
def load_model (primary_name fallback_name : String)
    (primary fallback : Except String Unit) : Except String LoadState :=
  match primary with
  | .ok _ => .ok ⟨true, primary_name⟩
  | .error _ =>
    match fallback with
    | .ok _ => .ok ⟨true, fallback_name⟩
    | .error fe => .error fe

/-- `ImageClassificationModel.load_model`. -/
def image_load_model (primary fallback : Except String Unit) :
    Except String LoadState :=
  load_model "google/vit-base-patch16-224" "google/vit-base-patch16-224"
    primary fallback

/-- `SentimentAnalysisModel.load_model`. -/
def sentiment_load_model (primary fallback : Except String Unit) :
    Except String LoadState :=
  load_model "cardiffnlp/twitter-roberta-base-sentiment-latest"
    "distilbert-base-uncased-finetuned-sst-2-english" primary fallback

/-! ### The background-dispatch pattern (`gui_application.py`)

`_process_in_thread` runs on the worker thread and only ever touches the
UI through `self.root.after(0, ...)`; the embedding is the sequence of
UI-thread callbacks it schedules, in order.  The worker's body is
`try/except/finally`, so the trace depends only on whether
`model.process` returned a result or raised. -/

inductive UIEvent
  | start_processing_ui
  | display_result (s : String)
  | stop_processing_ui
deriving DecidableEq

/-- The UI callbacks scheduled by one invocation of
`_process_in_thread`, given the outcome of `model.process`. -/
def process_in_thread (outcome : Except String String) : List UIEvent :=
  [UIEvent.start_processing_ui] ++
  (match outcome with
   | .ok result => [UIEvent.display_result result]
   | .error e => [UIEvent.display_result ("Error processing text: " ++ e)]) ++
  [UIEvent.stop_processing_ui]

/-! ### `get_sentiment_distribution` (`sentiment_analysis_model.py`) -/

/-- What one pipeline call inside the batch loop produced:
an exception, a falsy/empty result, or a first record whose `label`
field is present or absent. -/
inductive SentOutcome
  | err
  | nil
  | res (label : Option String)
deriving DecidableEq

/-- Python `str.upper` (ASCII labels). -/
def pyUpper (s : String) : String := ⟨s.data.map Char.toUpper⟩

/-- The starting dict `{"POSITIVE": 0, "NEGATIVE": 0, "NEUTRAL": 0}`. -/
def sentiment_counts_init : List (String × Nat) :=
  [("POSITIVE", 0), ("NEGATIVE", 0), ("NEUTRAL", 0)]

/-- `sentiment_counts[k] += 1` on the association-list dict. -/
def bump (d : List (String × Nat)) (k : String) : List (String × Nat) :=
  d.map (fun kv => if kv.1 = k then (kv.1, kv.2 + 1) else kv)

/-- One iteration of the batch loop. -/
def count_one (d : List (String × Nat)) : SentOutcome → List (String × Nat)
  | .err => bump d "NEUTRAL"
  | .nil => d
  | .res lab =>
    let label := lab.getD "NEUTRAL"
    if (d.map Prod.fst).contains label then bump d label
    else if pyStartsWith (pyUpper label) "POS" then bump d "POSITIVE"
    else if pyStartsWith (pyUpper label) "NEG" then bump d "NEGATIVE"
    else bump d "NEUTRAL"

/-- `get_sentiment_distribution`, as a function of the per-text pipeline
outcomes. -/
def get_sentiment_distribution (outcomes : List SentOutcome) :
    List (String × Nat) :=
  outcomes.foldl count_one sentiment_counts_init

/-- Total of the counts in the dict. -/
def sumCounts (d : List (String × Nat)) : Nat := (d.map Prod.snd).sum

/-! ### Helper lemmas -/

theorem dictGet_two (a b : String) (va vb : JVal) (k : String) :
    dictGet [(a, va), (b, vb)] k =
      if b = k then some vb else if a = k then some va else none := by
  by_cases hb : b = k <;> by_cases ha : a = k <;> simp [dictGet, ha, hb]

/-! ### Claim theorems -/

/-- Claim C1: the input classifier assigns exactly one of three
categories, in order — URL when the parsed scheme is http/https, else
local file when the (stripped) string names an existing path, else raw
text — and the three representative inputs classify as URL, file and
text respectively. -/
theorem spec_c1 :
    (∀ (s : String) (ex : String → Bool),
      (classify s ex = InputCategory.url ↔ is_url s = true) ∧
      (classify s ex = InputCategory.file ↔
        (is_url s = false ∧ ex (pyStrip s) = true)) ∧
      (classify s ex = InputCategory.text ↔
        (is_url s = false ∧ ex (pyStrip s) = false))) ∧
    (∀ ex, classify "https://x/y.jpg" ex = InputCategory.url) ∧
    classify "/tmp/img0.jpg" (fun t => t == "/tmp/img0.jpg") = InputCategory.file ∧
    classify "hello world" (fun _ => false) = InputCategory.text := by
  refine ⟨?_, fun ex => rfl, by decide, by decide⟩
  intro s ex
  simp only [classify, is_url_pyStrip]
  by_cases hu : is_url s = true <;> by_cases hex : ex (pyStrip s) = true <;>
    simp_all

/-- Claim C7: validation raises `ModelInputError` exactly on blank input —
every blank text (or `None`) raises, every non-blank text is passed to
the wrapped function unchanged, and a blank image input raises the image
`ModelInputError`; a non-blank image input never yields a validation
error. -/
theorem spec_c7 :
    (∀ s : String, pyStrip s = "" →
      validate_text_input (some s) =
        Except.error "Please enter some text to analyse.") ∧
    (∀ s : String, pyStrip s ≠ "" → validate_text_input (some s) = Except.ok s) ∧
    (validate_text_input none = Except.error "Please enter some text to analyse.") ∧
    (∀ (s : String) (ex : String → Bool), pyStrip s = "" →
      validate_image_input s ex =
        ImageValidation.input_error "Please provide an image URL or a local file path.") ∧
    (∀ (s : String) (ex : String → Bool) (m : String), pyStrip s ≠ "" →
      validate_image_input s ex ≠ ImageValidation.input_error m) := by
  refine ⟨?_, ?_, rfl, ?_, ?_⟩
  · intro s h
    simp [validate_text_input, h]
  · intro s h
    simp [validate_text_input, h]
  · intro s ex h
    simp [validate_image_input, h]
  · intro s ex m h
    simp only [validate_image_input]
    rw [if_neg h]
    by_cases hu : is_url (pyStrip s) = true <;>
      by_cases hex : ex (pyStrip s) = true <;> simp_all

/-- Witness for C7 at concrete inputs. -/
theorem spec_c7_witness :
    validate_text_input (some " \t ") =
      Except.error "Please enter some text to analyse." ∧
    validate_text_input (some "hello") = Except.ok "hello" ∧
    validate_image_input "  " (fun _ => false) =
      ImageValidation.input_error "Please provide an image URL or a local file path." ∧
    validate_image_input "hello world" (fun _ => false) ≠
      ImageValidation.input_error "Please provide an image URL or a local file path." :=
  ⟨spec_c7.1 " \t " (by decide), spec_c7.2.1 "hello" (by decide),
   spec_c7.2.2.2.1 "  " (fun _ => false) (by decide),
   spec_c7.2.2.2.2 "hello world" (fun _ => false) _ (by decide)⟩

/-- Claim C2 counterexample: a stored config whose `image_top_k` is 99
(outside 1..10) is returned by `load_config` as 99 — `load_config` does
not clamp. -/
theorem spec_c2_counterexample :
    dictGet (load_config (.stored (.jobj
        [("image_top_k", JVal.jint 99), ("text_max_len", JVal.jint 256)])))
      "image_top_k" = some (JVal.jint 99) ∧
    ¬((1 : Int) ≤ 99 ∧ (99 : Int) ≤ 10) :=
  ⟨rfl, by decide⟩

/-- Claim C2 (amended): `clamp_int` does clamp its argument to the given
bounds, but `load_config` and `save_config` pass the stored values of
the two integer fields through unchanged, so out-of-range stored values
stay out of range. -/
theorem spec_c2_amended :
    (∀ v lo hi : Int, lo ≤ hi →
      lo ≤ clamp_int v lo hi ∧ clamp_int v lo hi ≤ hi) ∧
    (∀ kvs v, dictGet kvs "image_top_k" = some v →
      dictGet (load_config (.stored (.jobj kvs))) "image_top_k" = some v) ∧
    (∀ kvs v, dictGet kvs "text_max_len" = some v →
      dictGet (load_config (.stored (.jobj kvs))) "text_max_len" = some v) ∧
    (∀ cfg v, dictGet cfg "image_top_k" = some v →
      dictGet (save_config cfg) "image_top_k" = some v) ∧
    (∀ cfg v, dictGet cfg "text_max_len" = some v →
      dictGet (save_config cfg) "text_max_len" = some v) := by
  refine ⟨?_, ?_, ?_, ?_, ?_⟩
  · intro v lo hi h
    unfold clamp_int
    omega
  · intro kvs v h
    have he : dictGet (load_config (.stored (.jobj kvs))) "image_top_k" =
        some ((dictGet kvs "image_top_k").getD (JVal.jint 5)) := rfl
    rw [he, h]
    rfl
  · intro kvs v h
    have he : dictGet (load_config (.stored (.jobj kvs))) "text_max_len" =
        some ((dictGet kvs "text_max_len").getD (JVal.jint 256)) := rfl
    rw [he, h]
    rfl
  · intro cfg v h
    have he : dictGet (save_config cfg) "image_top_k" =
        some ((dictGet cfg "image_top_k").getD (JVal.jint 5)) := rfl
    rw [he, h]
    rfl
  · intro cfg v h
    have he : dictGet (save_config cfg) "text_max_len" =
        some ((dictGet cfg "text_max_len").getD (JVal.jint 256)) := rfl
    rw [he, h]
    rfl

/-- Witness for the amended C2 at concrete inputs. -/
theorem spec_c2_witness :
    ((1 : Int) ≤ clamp_int 99 1 10 ∧ clamp_int 99 1 10 ≤ 10) ∧
    dictGet (load_config (.stored (.jobj [("image_top_k", JVal.jint 42)])))
      "image_top_k" = some (JVal.jint 42) :=
  ⟨spec_c2_amended.1 99 1 10 (by decide),
   spec_c2_amended.2.1 [("image_top_k", JVal.jint 42)] (JVal.jint 42) rfl⟩

/-- Claim C3: saving a configuration holding integer values for the two
keys and loading it back returns those same values. -/
theorem spec_c3 (cfg : List (String × JVal)) (a b : Int)
    (ha : dictGet cfg "image_top_k" = some (JVal.jint a))
    (hb : dictGet cfg "text_max_len" = some (JVal.jint b)) :
    dictGet (load_config (.stored (.jobj (save_config cfg))))
      "image_top_k" = some (JVal.jint a) ∧
    dictGet (load_config (.stored (.jobj (save_config cfg))))
      "text_max_len" = some (JVal.jint b) := by
  have hs : save_config cfg =
      [("image_top_k", JVal.jint a), ("text_max_len", JVal.jint b)] := by
    show [("image_top_k", (dictGet cfg "image_top_k").getD (JVal.jint 5)),
          ("text_max_len", (dictGet cfg "text_max_len").getD (JVal.jint 256))] = _
    rw [ha, hb]
    rfl
  rw [hs]
  exact ⟨rfl, rfl⟩

/-- Witness for C3 at a concrete configuration. -/
theorem spec_c3_witness :
    dictGet (load_config (.stored (.jobj (save_config
      [("image_top_k", JVal.jint 7), ("text_max_len", JVal.jint 100)]))))
      "image_top_k" = some (JVal.jint 7) ∧
    dictGet (load_config (.stored (.jobj (save_config
      [("image_top_k", JVal.jint 7), ("text_max_len", JVal.jint 100)]))))
      "text_max_len" = some (JVal.jint 100) :=
  spec_c3 [("image_top_k", JVal.jint 7), ("text_max_len", JVal.jint 100)]
    7 100 rfl rfl

/-- Claim C9: for every file state `load_config` returns a dict whose
key set is exactly the two known keys — error states and non-dict JSON
give the full defaults, unknown stored keys are dropped, missing keys
are filled with their defaults — and `save_config` writes exactly the
two keys. -/
theorem spec_c9 :
    (∀ fs, (load_config fs).map Prod.fst = ["image_top_k", "text_max_len"]) ∧
    (load_config .missing = DEFAULT_CONFIG) ∧
    (load_config .unreadable = DEFAULT_CONFIG) ∧
    (load_config .malformed = DEFAULT_CONFIG) ∧
    (∀ xs, load_config (.stored (.jarr xs)) = DEFAULT_CONFIG) ∧
    (∀ kvs k, k ≠ "image_top_k" → k ≠ "text_max_len" →
      dictGet (load_config (.stored (.jobj kvs))) k = none) ∧
    (∀ kvs, dictGet kvs "image_top_k" = none →
      dictGet (load_config (.stored (.jobj kvs))) "image_top_k" =
        some (JVal.jint 5)) ∧
    (∀ kvs, dictGet kvs "text_max_len" = none →
      dictGet (load_config (.stored (.jobj kvs))) "text_max_len" =
        some (JVal.jint 256)) ∧
    (∀ cfg, (save_config cfg).map Prod.fst = ["image_top_k", "text_max_len"]) := by
  refine ⟨?_, rfl, rfl, rfl, fun xs => rfl, ?_, ?_, ?_, fun cfg => rfl⟩
  · intro fs
    cases fs with
    | missing => rfl
    | unreadable => rfl
    | malformed => rfl
    | stored v => cases v <;> rfl
  · intro kvs k h1 h2
    have he : load_config (.stored (.jobj kvs)) =
        [("image_top_k", (dictGet kvs "image_top_k").getD (JVal.jint 5)),
         ("text_max_len", (dictGet kvs "text_max_len").getD (JVal.jint 256))] := rfl
    rw [he, dictGet_two, if_neg (fun h => h2 h.symm), if_neg (fun h => h1 h.symm)]
  · intro kvs h
    have he : dictGet (load_config (.stored (.jobj kvs))) "image_top_k" =
        some ((dictGet kvs "image_top_k").getD (JVal.jint 5)) := rfl
    rw [he, h]
    rfl
  · intro kvs h
    have he : dictGet (load_config (.stored (.jobj kvs))) "text_max_len" =
        some ((dictGet kvs "text_max_len").getD (JVal.jint 256)) := rfl
    rw [he, h]
    rfl

/-- Witness for C9 at concrete file states. -/
theorem spec_c9_witness :
    dictGet (load_config (.stored (.jobj [("junk", JVal.jnull)]))) "junk" = none ∧
    dictGet (load_config (.stored (.jobj [("junk", JVal.jnull)])))
      "image_top_k" = some (JVal.jint 5) :=
  ⟨spec_c9.2.2.2.2.2.1 [("junk", JVal.jnull)] "junk" (by decide) (by decide),
   spec_c9.2.2.2.2.2.2.1 [("junk", JVal.jnull)] rfl⟩

/-- Claim C4: every processing error is mapped to a human-readable
string rather than propagating — `friendly_error_message` sends each
exception category to its specific message (the validation message
itself, `Image file not found: ...`, the network-specific messages, and
`str(e)` for anything else), and each failure branch of the two
`process` methods returns the corresponding error string. -/
theorem spec_c4 :
    (∀ m, friendly_error_message (.model_input_error m) = m) ∧
    (∀ p, friendly_error_message (.file_not_found_error p) =
      "Image file not found: " ++ p) ∧
    (∀ m, friendly_error_message (.unidentified_image_error m) =
      "The file/URL could not be opened as an image.") ∧
    (∀ m, friendly_error_message (.missing_schema m) =
      "That doesn\x27t look like a valid URL. Please provide a full http/https link.") ∧
    (∀ m, friendly_error_message (.invalid_url m) =
      "That doesn\x27t look like a valid URL. Please provide a full http/https link.") ∧
    (∀ m, friendly_error_message (.connection_error m) =
      "Couldn\x27t reach the URL (connection error). Please check your network or the URL.") ∧
    (∀ m, friendly_error_message (.timeout m) =
      "The request timed out while fetching the URL.") ∧
    (∀ n m, friendly_error_message (.http_error (some n) m) =
      "HTTP error while fetching the URL (status " ++ toString n ++ ").") ∧
    (∀ m, friendly_error_message (.http_error none m) =
      "HTTP error while fetching the URL (status ?).") ∧
    (∀ m, friendly_error_message (.other m) = m) ∧
    (∀ (env : ImgEnv) (e : Exc),
      process "https://x/y.jpg" { env with urlFetch := fun _ => .error e } =
        "Error loading image from URL: " ++ excStr e) ∧
    (∀ (env : ImgEnv) (e : Exc),
      classify_phase { env with pipeline := fun _ => .error e } ⟨"RGB"⟩ =
        "Error processing image: " ++ excStr e) ∧
    (∀ env : ImgEnv,
      classify_phase { env with pipeline := fun _ => .ok [] } ⟨"RGB"⟩ =
        "Error: No classification results obtained") ∧
    (∀ (env : ImgEnv) (e : Exc),
      process "hello world" { env with fileOpen := fun _ => .error e } =
        demo_response "hello world") ∧
    (∀ (e : Exc) (v : String → Bool) (f : Float → String) (t : String),
      sentiment_process t (fun _ => .error e) v f =
        "Error processing sentiment: " ++ excStr e) ∧
    (∀ (v : String → Bool) (f : Float → String) (t : String),
      sentiment_process t (fun _ => .ok []) v f =
        "Error: No sentiment analysis result") := by
  refine ⟨fun m => rfl, fun p => rfl, fun m => rfl, fun m => rfl, fun m => rfl,
    fun m => rfl, fun m => rfl, fun n m => rfl, fun m => rfl, fun m => rfl,
    fun env e => rfl, fun env e => rfl, fun env => rfl, fun env e => rfl,
    fun e v f t => rfl, fun v f t => rfl⟩

/-- Claim C5: one invocation of the background worker schedules the
re-enabling callback `_stop_processing_ui` exactly once, as the last
UI-thread callback, whether `process` returns or raises; the full trace
is start, one result display, stop. -/
theorem spec_c5 (outcome : Except String String) :
    ((process_in_thread outcome).count UIEvent.stop_processing_ui = 1) ∧
    ((process_in_thread outcome).getLast? = some UIEvent.stop_processing_ui) ∧
    (∃ s, process_in_thread outcome =
      [UIEvent.start_processing_ui, UIEvent.display_result s,
       UIEvent.stop_processing_ui]) := by
  cases outcome with
  | ok r => exact ⟨rfl, rfl, ⟨r, rfl⟩⟩
  | error e => exact ⟨rfl, rfl, ⟨"Error processing text: " ++ e, rfl⟩⟩

/-- Claim C6: for both model classes, `load_model` succeeds with the
primary name when the primary load succeeds, falls back to the default
pipeline (marking the model loaded) when only the primary load fails,
and raises (the fallback error) only when both loads fail. -/
theorem spec_c6 :
    (∀ fb, image_load_model (.ok ()) fb =
      .ok ⟨true, "google/vit-base-patch16-224"⟩) ∧
    (∀ e, image_load_model (.error e) (.ok ()) =
      .ok ⟨true, "google/vit-base-patch16-224"⟩) ∧
    (∀ e e', image_load_model (.error e) (.error e') = .error e') ∧
    (∀ fb, sentiment_load_model (.ok ()) fb =
      .ok ⟨true, "cardiffnlp/twitter-roberta-base-sentiment-latest"⟩) ∧
    (∀ e, sentiment_load_model (.error e) (.ok ()) =
      .ok ⟨true, "distilbert-base-uncased-finetuned-sst-2-english"⟩) ∧
    (∀ e e', sentiment_load_model (.error e) (.error e') = .error e') :=
  ⟨fun _ => rfl, fun _ => rfl, fun _ _ => rfl,
   fun _ => rfl, fun _ => rfl, fun _ _ => rfl⟩

/-- Claim C8 counterexample: with `image_top_k` configured to 3 (a legal
value in 1..10) and a pipeline result of 4 ≥ 3 predictions, the rendered
output shows 4 labels, not 3 — `process` hardcodes `results[:5]` and
never consults the configuration. -/
theorem spec_c8_counterexample :
    ((1 : Nat) ≤ 3 ∧ (3 : Nat) ≤ 10) ∧
    3 ≤ ([⟨"tabby", 0.9⟩, ⟨"tiger cat", 0.05⟩, ⟨"lynx", 0.03⟩,
          ⟨"egyptian cat", 0.02⟩] : List Pred).length ∧
    ((shownPreds [⟨"tabby", 0.9⟩, ⟨"tiger cat", 0.05⟩, ⟨"lynx", 0.03⟩,
          ⟨"egyptian cat", 0.02⟩]).map Pred.label).length ≠ 3 := by
  refine ⟨⟨by decide, by decide⟩, ?_, ?_⟩
  · show 3 ≤ 4
    decide
  · show 4 ≠ 3
    decide

/-- Claim C8 (amended): the image output lists the top `min 5 n` of the
`n` pipeline predictions — the count is fixed at 5 (the default
`image_top_k`), and the `image_top_k` configuration knob is not
consulted; with at least 5 predictions exactly 5 labels are rendered,
and a successful run renders exactly the `shownPreds` slice. -/
theorem spec_c8_amended :
    (∀ results : List Pred,
      ((shownPreds results).map Pred.label).length = min 5 results.length) ∧
    (∀ results : List Pred, 5 ≤ results.length →
      ((shownPreds results).map Pred.label).length = 5) ∧
    (∀ (env : ImgEnv) (rs : List Pred), rs ≠ [] →
      classify_phase
          { env with pipeline := fun _ => .ok rs, validOut := fun _ => true }
          ⟨"RGB"⟩ =
        format_results
          { env with pipeline := fun _ => .ok rs, validOut := fun _ => true }
          rs) := by
  refine ⟨?_, ?_, ?_⟩
  · intro results
    simp [shownPreds]
  · intro results h
    simp [shownPreds]
    omega
  · intro env rs h
    have hlen : 0 < rs.length := List.length_pos.mpr h
    simp [classify_phase, hlen]

/-- Witness for the amended C8 at concrete prediction lists. -/
theorem spec_c8_witness :
    ((shownPreds [⟨"a", 0.3⟩, ⟨"b", 0.2⟩, ⟨"c", 0.2⟩, ⟨"d", 0.1⟩, ⟨"e", 0.1⟩,
        ⟨"f", 0.1⟩]).map Pred.label).length = 5 ∧
    classify_phase
        { urlFetch := fun _ => .error (.other "unused"),
          fileOpen := fun _ => .error (.other "unused"), convert := id,
          pipeline := fun _ => .ok [⟨"tabby", 0.9⟩], validOut := fun _ => true,
          f3 := fun _ => "0.900", f1 := fun _ => "90.0" } ⟨"RGB"⟩ =
      format_results
        { urlFetch := fun _ => .error (.other "unused"),
          fileOpen := fun _ => .error (.other "unused"), convert := id,
          pipeline := fun _ => .ok [⟨"tabby", 0.9⟩], validOut := fun _ => true,
          f3 := fun _ => "0.900", f1 := fun _ => "90.0" }
        [⟨"tabby", 0.9⟩] :=
  ⟨spec_c8_amended.2.1
      [⟨"a", 0.3⟩, ⟨"b", 0.2⟩, ⟨"c", 0.2⟩, ⟨"d", 0.1⟩, ⟨"e", 0.1⟩, ⟨"f", 0.1⟩]
      (by decide),
   spec_c8_amended.2.2
      { urlFetch := fun _ => .error (.other "unused"),
        fileOpen := fun _ => .error (.other "unused"), convert := id,
        pipeline := fun _ => .ok [⟨"tabby", 0.9⟩], validOut := fun _ => true,
        f3 := fun _ => "0.900", f1 := fun _ => "90.0" }
      [⟨"tabby", 0.9⟩] (List.cons_ne_nil _ _)⟩

/-! Helper lemmas for the sentiment distribution. -/

theorem count_one_shape (a b c : Nat) (o : SentOutcome) :
    ∃ a' b' c',
      count_one [("POSITIVE", a), ("NEGATIVE", b), ("NEUTRAL", c)] o =
        [("POSITIVE", a'), ("NEGATIVE", b'), ("NEUTRAL", c')] ∧
      a' + b' + c' = a + b + c + (if o = SentOutcome.nil then 0 else 1) := by
  cases o with
  | err => exact ⟨a, b, c + 1, rfl, by simp; omega⟩
  | nil => exact ⟨a, b, c, rfl, by simp⟩
  | res lab =>
    cases lab with
    | none => exact ⟨a, b, c + 1, rfl, by simp; omega⟩
    | some l =>
      by_cases hP : l = "POSITIVE"
      · subst hP
        exact ⟨a + 1, b, c, rfl, by simp; omega⟩
      by_cases hN : l = "NEGATIVE"
      · subst hN
        exact ⟨a, b + 1, c, rfl, by simp; omega⟩
      by_cases hU : l = "NEUTRAL"
      · subst hU
        exact ⟨a, b, c + 1, rfl, by simp; omega⟩
      by_cases h2 : pyStartsWith (pyUpper l) "POS" = true
      · refine ⟨a + 1, b, c, ?_, by simp; omega⟩
        have he : count_one [("POSITIVE", a), ("NEGATIVE", b), ("NEUTRAL", c)]
            (SentOutcome.res (some l)) =
            bump [("POSITIVE", a), ("NEGATIVE", b), ("NEUTRAL", c)] "POSITIVE" := by
          simp [count_one, hP, hN, hU, h2]
        rw [he]
        rfl
      by_cases h3 : pyStartsWith (pyUpper l) "NEG" = true
      · refine ⟨a, b + 1, c, ?_, by simp; omega⟩
        have he : count_one [("POSITIVE", a), ("NEGATIVE", b), ("NEUTRAL", c)]
            (SentOutcome.res (some l)) =
            bump [("POSITIVE", a), ("NEGATIVE", b), ("NEUTRAL", c)] "NEGATIVE" := by
          simp [count_one, hP, hN, hU, h2, h3]
        rw [he]
        rfl
      · refine ⟨a, b, c + 1, ?_, by simp; omega⟩
        have he : count_one [("POSITIVE", a), ("NEGATIVE", b), ("NEUTRAL", c)]
            (SentOutcome.res (some l)) =
            bump [("POSITIVE", a), ("NEGATIVE", b), ("NEUTRAL", c)] "NEUTRAL" := by
          simp [count_one, hP, hN, hU, h2, h3]
        rw [he]
        rfl

theorem dist_shape (outcomes : List SentOutcome) : ∀ a b c : Nat,
    ∃ a' b' c',
      outcomes.foldl count_one [("POSITIVE", a), ("NEGATIVE", b), ("NEUTRAL", c)] =
        [("POSITIVE", a'), ("NEGATIVE", b'), ("NEUTRAL", c')] ∧
      a' + b' + c' + outcomes.count SentOutcome.nil =
        a + b + c + outcomes.length := by
  induction outcomes with
  | nil => exact fun a b c => ⟨a, b, c, rfl, by simp⟩
  | cons o t ih =>
    intro a b c
    obtain ⟨a₁, b₁, c₁, he₁, hs₁⟩ := count_one_shape a b c o
    obtain ⟨a', b', c', he', hs'⟩ := ih a₁ b₁ c₁
    refine ⟨a', b', c', ?_, ?_⟩
    · rw [List.foldl_cons, he₁, he']
    · rw [List.count_cons]
      by_cases ho : o = SentOutcome.nil
      · subst ho
        simp only [if_pos rfl, beq_self_eq_true, if_true] at hs₁ ⊢
        simp only [List.length_cons]
        omega
      · have hb : (o == SentOutcome.nil) = false := by
          simp [ho]
        rw [if_neg ho] at hs₁
        simp only [hb, Bool.false_eq_true, if_false, List.length_cons]
        omega

/-- Claim C10 counterexample: a one-text batch whose pipeline call
returns an empty result contributes no count at all, so the three counts
sum to 0, not to the input length 1. -/
theorem spec_c10_counterexample :
    get_sentiment_distribution [SentOutcome.nil] =
      [("POSITIVE", 0), ("NEGATIVE", 0), ("NEUTRAL", 0)] ∧
    sumCounts (get_sentiment_distribution [SentOutcome.nil]) ≠
      [SentOutcome.nil].length := by
  refine ⟨rfl, ?_⟩
  show (0 : Nat) ≠ 1
  decide

/-- Claim C10 (amended): `get_sentiment_distribution` always returns a
dict with exactly the keys POSITIVE, NEGATIVE, NEUTRAL; every outcome
except an empty pipeline result contributes exactly one count (so the
counts sum to the input length minus the number of empty results);
failures count as NEUTRAL and unrecognised labels map by POS/NEG prefix,
defaulting to NEUTRAL; empty results contribute nothing. -/
theorem spec_c10_amended :
    (∀ outcomes, (get_sentiment_distribution outcomes).map Prod.fst =
      ["POSITIVE", "NEGATIVE", "NEUTRAL"]) ∧
    (∀ outcomes,
      sumCounts (get_sentiment_distribution outcomes) +
        outcomes.count SentOutcome.nil = outcomes.length) ∧
    (get_sentiment_distribution [SentOutcome.err] =
      [("POSITIVE", 0), ("NEGATIVE", 0), ("NEUTRAL", 1)]) ∧
    (get_sentiment_distribution [SentOutcome.res (some "POSITIVE")] =
      [("POSITIVE", 1), ("NEGATIVE", 0), ("NEUTRAL", 0)]) ∧
    (get_sentiment_distribution [SentOutcome.res (some "positive")] =
      [("POSITIVE", 1), ("NEGATIVE", 0), ("NEUTRAL", 0)]) ∧
    (get_sentiment_distribution [SentOutcome.res (some "Neg: 2 stars")] =
      [("POSITIVE", 0), ("NEGATIVE", 1), ("NEUTRAL", 0)]) ∧
    (get_sentiment_distribution [SentOutcome.res (some "MIXED")] =
      [("POSITIVE", 0), ("NEGATIVE", 0), ("NEUTRAL", 1)]) ∧
    (get_sentiment_distribution [SentOutcome.res none] =
      [("POSITIVE", 0), ("NEGATIVE", 0), ("NEUTRAL", 1)]) := by
  refine ⟨?_, ?_, rfl, rfl, rfl, rfl, rfl, rfl⟩
  · intro outcomes
    obtain ⟨a', b', c', he, hs⟩ := dist_shape outcomes 0 0 0
    show (outcomes.foldl count_one sentiment_counts_init).map Prod.fst = _
    rw [show sentiment_counts_init =
      [("POSITIVE", 0), ("NEGATIVE", 0), ("NEUTRAL", 0)] from rfl, he]
    rfl
  · intro outcomes
    obtain ⟨a', b', c', he, hs⟩ := dist_shape outcomes 0 0 0
    show sumCounts (outcomes.foldl count_one sentiment_counts_init) + _ = _
    rw [show sentiment_counts_init =
      [("POSITIVE", 0), ("NEGATIVE", 0), ("NEUTRAL", 0)] from rfl, he]
    show a' + (b' + (c' + 0)) + _ = _
    omega

end HIT137
